import Mathlib

/-!
# Verification of the wp-desktop external-links navigation policy

A shallow embedding of `src/desktop/window-handlers/external-links/index.js`.

JavaScript URL objects (WHATWG `new URL`) are modelled by `URLRecord` and a
parser `parseURL` covering the fragment of the WHATWG algorithm exercised by
this module: scheme parsing, the slash-leniency of special schemes, authority
(hostname / port, default-port elision), path, query and fragment splitting.
`new URL` throwing a `TypeError` on an unparsable string is modelled by
`parseURL` returning `none`, and by the `Except JsError` results of the
functions that call it.

Effects on the Electron runtime (`event.preventDefault()`,
`shell.openExternal`, window-option mutation, dialog, settings persistence,
IPC messages) are recorded in explicit result structures; logging calls are
not tracked except where a claim mentions them (`log.error` in the editor
flow).
-/

namespace WpDesktop

/-- A parsed URL, mirroring the fields of a WHATWG `URL` object that the
module reads or writes: `protocol` (with trailing colon), `hostname`
(without port), `port` (decimal string, `""` when absent or default),
`pathname`, `search` (with leading `?` when nonempty) and `hash`
(with leading `#` when nonempty). -/
structure URLRecord where
  protocol : String
  hostname : String
  port : String
  pathname : String
  search : String
  hash : String
deriving DecidableEq, Repr

abbrev Chars := List Char

/-- Scheme characters after the first: ASCII alphanumeric, `+`, `-`, `.`. -/
def isSchemeChar (c : Char) : Bool :=
  c.isAlphanum || c = '+' || c = '-' || c = '.'

/-- Consume scheme characters until the terminating `:`; `none` when the
string has no well-formed `scheme:` prefix (WHATWG parse failure without a
base URL). -/
def takeScheme (acc : Chars) : Chars → Option (Chars × Chars)
  | [] => none
  | c :: cs =>
    if c = ':' then some (acc.reverse, cs)
    else if isSchemeChar c then takeScheme (c :: acc) cs
    else none

/-- Split `scheme:rest`; the first character must be an ASCII letter. -/
def splitScheme : Chars → Option (Chars × Chars)
  | [] => none
  | c :: cs => if c.isAlpha then takeScheme [c] cs else none

/-- The WHATWG special schemes (minus `file`, which this module never sees). -/
def specialSchemes : List String := ["http", "https", "ws", "wss", "ftp"]

/-- Default port of a special scheme; serialized as the empty port string. -/
def defaultPort (scheme : String) : Option Nat :=
  if scheme = "http" ∨ scheme = "ws" then some 80
  else if scheme = "https" ∨ scheme = "wss" then some 443
  else if scheme = "ftp" then some 21
  else none

/-- Special-authority-ignore-slashes state: any run of `/` or `\` after
`scheme:` is skipped, which is why `https:/host` parses like `https://host`. -/
def dropSlashes : Chars → Chars
  | [] => []
  | c :: cs => if c = '/' ∨ c = '\\' then dropSlashes cs else c :: cs

/-- Split at the first character satisfying `p` (kept in the second part). -/
def spanUntil (p : Char → Bool) : Chars → Chars × Chars
  | [] => ([], [])
  | c :: cs =>
    if p c then ([], c :: cs)
    else
      let (a, b) := spanUntil p cs
      (c :: a, b)

/-- Drop the `userinfo@` part of an authority: keep what follows the last `@`. -/
def afterLastAt (auth : Chars) : Chars :=
  (auth.reverse.takeWhile (fun c => c ≠ '@')).reverse

/-- Parse the port digits after `host:`; empty digits give the empty port,
a port equal to the scheme's default is elided, a non-digit or an
out-of-range value is a parse failure. -/
def parsePortDigits (scheme : String) (ds : Chars) : Option String :=
  if ds = [] then some ""
  else if ds.all Char.isDigit then
    let n := ds.foldl (fun acc c => acc * 10 + (c.toNat - 48)) 0
    if n > 65535 then none
    else if defaultPort scheme = some n then some "" else some (toString n)
  else none

/-- Parse `host[:port]`; hostnames are lowercased, an empty host is a parse
failure for special schemes (as in `new URL('http://')`). -/
def parseHostPort (scheme : String) (hp : Chars) : Option (String × String) :=
  let (h, rest) := spanUntil (fun c => c = ':') hp
  let host := String.mk (h.map Char.toLower)
  let portPart : Option String :=
    match rest with
    | [] => some ""
    | _ :: ds => parsePortDigits scheme ds
  match portPart with
  | none => none
  | some port =>
    if host = "" then
      if specialSchemes.contains scheme ∨ port ≠ "" then none else some ("", port)
    else some (host, port)

/-- Split off the fragment; a lone `#` yields an empty `hash`, as in WHATWG
serialization. -/
def splitFragment (cs : Chars) : Chars × String :=
  let (a, b) := spanUntil (fun c => c = '#') cs
  match b with
  | ['#'] => (a, "")
  | _ => (a, String.mk b)

/-- Split off the query; a lone `?` yields an empty `search`. -/
def splitQuery (cs : Chars) : Chars × String :=
  let (a, b) := spanUntil (fun c => c = '?') cs
  match b with
  | ['?'] => (a, "")
  | _ => (a, String.mk b)

/-- The WHATWG URL parser fragment used by the module: `none` models
`new URL` throwing `TypeError`. -/
def parseURL (input : String) : Option URLRecord :=
  match splitScheme input.toList with
  | none => none
  | some (schemeChars, rest) =>
    let scheme := String.mk (schemeChars.map Char.toLower)
    let protocol := scheme ++ ":"
    if specialSchemes.contains scheme then
      let rest := dropSlashes rest
      let (auth, pathRest) :=
        spanUntil (fun c => c = '/' ∨ c = '\\' ∨ c = '?' ∨ c = '#') rest
      match parseHostPort scheme (afterLastAt auth) with
      | none => none
      | some (host, port) =>
        let (beforeHash, hash) := splitFragment pathRest
        let (path, search) := splitQuery beforeHash
        let pathname := if path = [] then "/" else String.mk path
        some ⟨protocol, host, port, pathname, search, hash⟩
    else
      match rest with
      | '/' :: '/' :: rest2 =>
        let (auth, pathRest) := spanUntil (fun c => c = '/' ∨ c = '?' ∨ c = '#') rest2
        match parseHostPort scheme (afterLastAt auth) with
        | none => none
        | some (host, port) =>
          let (beforeHash, hash) := splitFragment pathRest
          let (path, search) := splitQuery beforeHash
          some ⟨protocol, host, port, String.mk path, search, hash⟩
      | _ =>
        let (beforeHash, hash) := splitFragment rest
        let (path, search) := splitQuery beforeHash
        some ⟨protocol, "", "", String.mk path, search, hash⟩

/-- `url.format(parsedUrl)`: serialize a URL record back to a string. -/
def formatURL (u : URLRecord) : String :=
  u.protocol ++
    (if u.hostname = "" then ""
     else "//" ++ u.hostname ++ (if u.port = "" then "" else ":" ++ u.port)) ++
    u.pathname ++ u.search ++ u.hash

/-- `new URL` throwing is the only JavaScript exception these handlers raise. -/
inductive JsError
  | typeError
deriving DecidableEq, Repr

/-- The values of `lib/config` read by the module: `server_host`,
`server_url` and `wordpress_host` are opaque configuration strings. -/
structure Config where
  server_host : String
  server_url : String
  wordpress_host : String

/-- `const SCALE_NEW_WINDOW_FACTOR = 0.9` (JS numbers modelled as rationals). -/
def SCALE_NEW_WINDOW_FACTOR : ℚ := 9 / 10

/-- `const OFFSET_NEW_WINDOW = 50`. -/
def OFFSET_NEW_WINDOW : ℚ := 50

/-- The `ALWAYS_OPEN_IN_APP` pattern list. The source's string literals are
taken after JavaScript escape processing: `'\.'` and `'\/'` are identity
escapes, so the wp-login entry is plain `https://wordpress.com/wp-login.php`,
while the `public-api` entry really has a single slash. -/
def ALWAYS_OPEN_IN_APP (cfg : Config) : List String :=
  [ "http://" ++ cfg.server_host,
    "http://localhost",
    "http://calypso.localhost:3000/*",
    "https:/public-api.wordpress.com",
    "https://wordpress.com/wp-login.php",
    "http://127.0.0.1:41050/*" ]

/-- The `DONT_OPEN_IN_BROWSER` pattern list. -/
def DONT_OPEN_IN_BROWSER (cfg : Config) : List String :=
  [ cfg.server_url,
    "https://public-api.wordpress.com/connect/" ]

/-- `domainAndPathSame( first, second )` from the source: hostnames equal and
(pathnames equal or the second URL's pathname is the wildcard `/*`). -/
def domainAndPathSame (first second : URLRecord) : Bool :=
  first.hostname == second.hostname &&
    (first.pathname == second.pathname || second.pathname == "/*")

/-- `isValidBrowserUrl( url )`: parses the URL (which may throw) and returns
the input (`some url`, truthy) for `http:`/`https:`, `false` (`none`)
otherwise. -/
def isValidBrowserUrl (url : String) : Except JsError (Option String) :=
  match parseURL url with
  | none => Except.error JsError.typeError
  | some parsedUrl =>
    if parsedUrl.protocol = "http:" ∨ parsedUrl.protocol = "https:" then
      Except.ok (some url)
    else
      Except.ok none

/-- The observable result of a navigation handler on its event: whether
`event.preventDefault()` ran and the arguments of the `shell.openExternal`
calls, in order. -/
structure NavResult where
  prevented : Bool
  opened : List String
deriving DecidableEq, Repr

/-- `openInBrowser( event, url )`: open externally when `isValidBrowserUrl`
succeeds, then `event.preventDefault()`. When `isValidBrowserUrl` throws,
the exception propagates before `preventDefault` is reached. -/
def openInBrowser (url : String) : Except JsError NavResult :=
  match isValidBrowserUrl url with
  | Except.error e => Except.error e
  | Except.ok (some _) => Except.ok ⟨true, [url]⟩
  | Except.ok none => Except.ok ⟨true, []⟩

/-- `replaceInternalCalypsoUrl( url )`: rewrite the internal server host to
the public WordPress host and clear the port; otherwise return unchanged. -/
def replaceInternalCalypsoUrl (cfg : Config) (url : URLRecord) : URLRecord :=
  if url.hostname = cfg.server_host then
    { url with hostname := cfg.wordpress_host, port := "" }
  else
    url

/-- The `for`/`return` scan the two handlers run over a pattern list:
parse each entry with `new URL` (whose failure throws out of the handler)
and stop at the first entry matching `domainAndPathSame`. -/
def scanMatches (u : URLRecord) : List String → Except JsError Bool
  | [] => Except.ok false
  | e :: rest =>
    match parseURL e with
    | none => Except.error JsError.typeError
    | some eu =>
      if domainAndPathSame u eu then Except.ok true else scanMatches u rest

/-- Whether one pattern-list entry matches a parsed URL (specification-side
view of one step of `scanMatches`; an unparsable entry matches nothing). -/
def entryMatches (u : URLRecord) (e : String) : Bool :=
  match parseURL e with
  | some eu => domainAndPathSame u eu
  | none => false

/-- The `will-navigate` handler: parse the destination, return on the first
`ALWAYS_OPEN_IN_APP` match, otherwise `openInBrowser( event, url )`. -/
def willNavigate (cfg : Config) (url : String) : Except JsError NavResult :=
  match parseURL url with
  | none => Except.error JsError.typeError
  | some parsedUrl =>
    match scanMatches parsedUrl (ALWAYS_OPEN_IN_APP cfg) with
    | Except.error e => Except.error e
    | Except.ok true => Except.ok ⟨false, []⟩
    | Except.ok false => openInBrowser url

/-- The window placement options carried by a `new-window` event. -/
structure WinOptions where
  x : ℚ
  y : ℚ
  width : ℚ
  height : ℚ
deriving DecidableEq, Repr

/-- The observable result of the `new-window` handler: event suppression,
external-browser calls, and the (possibly mutated) window options. -/
structure NewWindowResult where
  prevented : Bool
  opened : List String
  options : WinOptions
deriving DecidableEq, Repr

/-- The `new-window` handler: on the first `DONT_OPEN_IN_BROWSER` match,
offset and scale the window options and return (the secondary window opens);
otherwise rewrite the internal host, format, and `openInBrowser`. -/
def newWindow (cfg : Config) (url : String) (options : WinOptions) :
    Except JsError NewWindowResult :=
  match parseURL url with
  | none => Except.error JsError.typeError
  | some parsedUrl =>
    match scanMatches parsedUrl (DONT_OPEN_IN_BROWSER cfg) with
    | Except.error e => Except.error e
    | Except.ok true =>
      Except.ok ⟨false, [],
        ⟨options.x + OFFSET_NEW_WINDOW, options.y + OFFSET_NEW_WINDOW,
         options.width * SCALE_NEW_WINDOW_FACTOR,
         options.height * SCALE_NEW_WINDOW_FACTOR⟩⟩
    | Except.ok false =>
      match openInBrowser (formatURL (replaceInternalCalypsoUrl cfg parsedUrl)) with
      | Except.error e => Except.error e
      | Except.ok r => Except.ok ⟨r.prevented, r.opened, options⟩

/-- The button list built by `promptWpAdminAuth` before showing the dialog:
two choices for a non-admin, three for an admin. -/
def dialogButtons (isAdmin : Bool) : List String :=
  if isAdmin then
    ["Enable SSO and Continue", "Proceed in Browser", "Cancel"]
  else
    ["Proceed in Browser", "Cancel"]

/-- The observable side effects of one run of `promptWpAdminAuth`:
`event.preventDefault()` and `shell.openExternal` from `openInBrowser`,
the outbound `enable-site-option` IPC send plus the listener registration of
`enableSSOandContinue`, the `showMySites( mainWindow )` call, the persisted
`LAST_LOCATION` value, and whether the `catch` block logged an error. -/
structure FlowEffects where
  prevented : Bool := false
  openedExternal : List String := []
  sentEnableSiteOption : Bool := false
  ssoListenerRegistered : Bool := false
  showedMySites : Bool := false
  savedLastLocation : Option String := none
  loggedError : Bool := false
deriving DecidableEq, Repr

/-- `promptWpAdminAuth` from the `cannot-open-editor` handler.
`showMessageBox` stands for the synchronous `dialog.showMessageBox` call on
the button list: it returns the selected index or throws. The whole body is
wrapped in the source's `try`/`catch`, whose `catch` only logs; an exception
anywhere inside (the dialog itself, or `openInBrowser` on an unparsable
editor URL — whose only throw point precedes all its effects) yields a run
whose sole effect is the error log. -/
def promptWpAdminAuth (isAdmin : Bool)
    (showMessageBox : List String → Except JsError Nat)
    (editorUrl : String) (originHostname : String) : FlowEffects :=
  let buttons := dialogButtons isAdmin
  let tryBody : Except JsError FlowEffects := do
    let selected ← showMessageBox buttons
    let eff ←
      if selected = 0 then
        if isAdmin then
          pure { sentEnableSiteOption := true, ssoListenerRegistered := true }
        else
          (openInBrowser editorUrl).map fun r =>
            { prevented := r.prevented, openedExternal := r.opened }
      else if selected = 1 then
        if isAdmin then
          (openInBrowser editorUrl).map fun r =>
            { prevented := r.prevented, openedExternal := r.opened }
        else
          pure {}
      else
        pure {}
    if isAdmin ∧ selected = 0 then
      pure eff
    else
      pure { eff with
        showedMySites := true,
        savedLastLocation := some ("/stats/day/" ++ originHostname) }
  match tryBody with
  | Except.ok eff => eff
  | Except.error _ => { loggedError := true }

/-- The IPC listener registry and outbound sends touched by
`enableSSOandContinue`: listener counts for the two response channels and
counters for the `request-site` and `navigate` sends. -/
structure SsoState where
  enableRespListeners : Nat
  requestRespListeners : Nat
  requestSiteSent : Nat
  navigateSent : Nat
deriving DecidableEq, Repr

/-- No listeners registered, nothing sent. -/
def initialSsoState : SsoState := ⟨0, 0, 0, 0⟩

/-- `enableSSOandContinue`: `ipc.on( 'enable-site-option-response', ... )`
registers one listener (and `enable-site-option` is sent to the renderer). -/
def enableSSOandContinue (s : SsoState) : SsoState :=
  { s with enableRespListeners := s.enableRespListeners + 1 }

/-- The two inbound IPC events of the SSO round trip. -/
inductive SsoEvent
  | enableResp (status : String)
  | requestResp
deriving DecidableEq, Repr

/-- Delivery of one inbound IPC event to the registered listeners, following
the listener bodies in `enableSSOandContinue`. On
`enable-site-option-response` each registered listener (Node snapshots the
list before emitting) runs
`ipc.removeAllListeners( 'enable-site-option-response' )` and, on
`status === 'success'`, registers a `request-site-response` listener via
`ipc.on` and sends `request-site`. On `request-site-response` every
registered listener sends `navigate`; the source removes none of them. -/
def ssoStep (s : SsoState) : SsoEvent → SsoState
  | SsoEvent.enableResp status =>
    if status = "success" then
      { s with
        enableRespListeners := 0,
        requestRespListeners := s.requestRespListeners + s.enableRespListeners,
        requestSiteSent := s.requestSiteSent + s.enableRespListeners }
    else
      { s with enableRespListeners := 0 }
  | SsoEvent.requestResp =>
    { s with navigateSent := s.navigateSent + s.requestRespListeners }

/-- Run the SSO flow: one `enableSSOandContinue` call followed by a sequence
of inbound IPC events. -/
def runSsoFlow (events : List SsoEvent) : SsoState :=
  List.foldl ssoStep (enableSSOandContinue initialSsoState) events

/-! ## Concrete fixtures used by witnesses and counterexamples -/

/-- A concrete configuration matching the defaults the app ships with:
internal server `127.0.0.1` on port `41050`, public host `wordpress.com`. -/
def cfg0 : Config := ⟨"127.0.0.1", "http://127.0.0.1:41050", "wordpress.com"⟩

/-- `new URL('https://wordpress.com/wp-login.php')`. -/
def wpLoginURL : URLRecord := ⟨"https:", "wordpress.com", "", "/wp-login.php", "", ""⟩

/-- `new URL('http://evil.example/x')`. -/
def evilURL : URLRecord := ⟨"http:", "evil.example", "", "/x", "", ""⟩

/-- `new URL('mailto:test@example.com')`: no host, opaque path. -/
def mailtoURL : URLRecord := ⟨"mailto:", "", "", "test@example.com", "", ""⟩

/-- `new URL('http://localhost/x')`. -/
def localhostPlainURL : URLRecord := ⟨"http:", "localhost", "", "/x", "", ""⟩

/-- `new URL('http://localhost:8080/x?q=1')`: same host and path as
`localhostPlainURL`, different port and query. -/
def localhostPortURL : URLRecord := ⟨"http:", "localhost", "8080", "/x", "?q=1", ""⟩

/-- `new URL('http://127.0.0.1:41050/post')`: internally-addressed link. -/
def internalPostURL : URLRecord := ⟨"http:", "127.0.0.1", "41050", "/post", "", ""⟩

end WpDesktop

deriving instance DecidableEq for Except

namespace WpDesktop

/-! ## Helper lemmas -/

/-- When every entry of a pattern list parses, the handlers' scan returns
normally and agrees with the entrywise match predicate. -/
theorem scanMatches_eq_any (u : URLRecord) (l : List String)
    (h : ∀ e ∈ l, (parseURL e).isSome) :
    scanMatches u l = Except.ok (l.any (entryMatches u)) := by
  induction l with
  | nil => rfl
  | cons e rest ih =>
    obtain ⟨eu, heu⟩ := Option.isSome_iff_exists.mp (h e (List.mem_cons_self e rest))
    have ih2 := ih (fun x hx => h x (List.mem_cons_of_mem e hx))
    cases hdm : domainAndPathSame u eu with
    | true => simp [scanMatches, heu, hdm, entryMatches, List.any_cons]
    | false => simp [scanMatches, heu, hdm, entryMatches, List.any_cons, ih2]

/-- `openInBrowser` on a parsable URL: `preventDefault` always runs, and the
URL reaches `shell.openExternal` exactly when its scheme is http(s). -/
theorem openInBrowser_eq (url : String) (u : URLRecord) (h : parseURL url = some u) :
    openInBrowser url =
      Except.ok ⟨true,
        if u.protocol = "http:" ∨ u.protocol = "https:" then [url] else []⟩ := by
  by_cases hp : u.protocol = "http:" ∨ u.protocol = "https:" <;>
    simp [openInBrowser, isValidBrowserUrl, h, hp]

/-- Normal form of the `will-navigate` handler on a parsable URL when every
pattern-list entry parses. -/
theorem willNavigate_eq (cfg : Config) (url : String) (u : URLRecord)
    (hu : parseURL url = some u)
    (hl : ∀ e ∈ ALWAYS_OPEN_IN_APP cfg, (parseURL e).isSome) :
    willNavigate cfg url =
      if (ALWAYS_OPEN_IN_APP cfg).any (entryMatches u) then
        Except.ok ⟨false, []⟩
      else
        Except.ok ⟨true,
          if u.protocol = "http:" ∨ u.protocol = "https:" then [url] else []⟩ := by
  simp only [willNavigate, hu]
  rw [scanMatches_eq_any u _ hl]
  cases hm : (ALWAYS_OPEN_IN_APP cfg).any (entryMatches u) with
  | true => simp
  | false => simp [openInBrowser_eq url u hu]

/-- Normal form of the `new-window` handler on a parsable URL when every
pattern-list entry parses. -/
theorem newWindow_eq (cfg : Config) (url : String) (u : URLRecord)
    (options : WinOptions) (hu : parseURL url = some u)
    (hl : ∀ e ∈ DONT_OPEN_IN_BROWSER cfg, (parseURL e).isSome) :
    newWindow cfg url options =
      if (DONT_OPEN_IN_BROWSER cfg).any (entryMatches u) then
        Except.ok ⟨false, [],
          ⟨options.x + OFFSET_NEW_WINDOW, options.y + OFFSET_NEW_WINDOW,
           options.width * SCALE_NEW_WINDOW_FACTOR,
           options.height * SCALE_NEW_WINDOW_FACTOR⟩⟩
      else
        Except.map (fun r => ⟨r.prevented, r.opened, options⟩)
          (openInBrowser (formatURL (replaceInternalCalypsoUrl cfg u))) := by
  simp only [newWindow, hu]
  rw [scanMatches_eq_any u _ hl]
  cases hm : (DONT_OPEN_IN_BROWSER cfg).any (entryMatches u) with
  | true => simp
  | false =>
    cases ho : openInBrowser (formatURL (replaceInternalCalypsoUrl cfg u)) with
    | error e => simp [ho, Except.map]
    | ok r => simp [ho, Except.map]

/-! ## Claim theorems -/

/-- C1, counterexample. The claim says a string that fails URL parsing makes
`isValidBrowserUrl` return false without throwing; on `"not a url"` the
source's `new URL( url )` throws a `TypeError` which propagates out of
`isValidBrowserUrl` (no `try`/`catch` anywhere in the function), so it never
returns false there. -/
theorem isValidBrowserUrl_malformed_throws_cex :
    parseURL "not a url" = none ∧
    isValidBrowserUrl "not a url" = Except.error JsError.typeError ∧
    isValidBrowserUrl "not a url" ≠ Except.ok none := by decide

/-- C1, amended. For every URL string that parses with scheme `http` or
`https`, `isValidBrowserUrl` returns the input string unchanged (truthy);
for every URL string that parses with any other scheme it returns false;
for a string that fails URL parsing the parse exception propagates out of
`isValidBrowserUrl` instead of a false return. -/
theorem isValidBrowserUrl_amended (s : String) :
    (∀ u : URLRecord, parseURL s = some u →
      (u.protocol = "http:" ∨ u.protocol = "https:") →
      isValidBrowserUrl s = Except.ok (some s))
    ∧ (∀ u : URLRecord, parseURL s = some u →
      ¬(u.protocol = "http:" ∨ u.protocol = "https:") →
      isValidBrowserUrl s = Except.ok none)
    ∧ (parseURL s = none → isValidBrowserUrl s = Except.error JsError.typeError) := by
  refine ⟨fun u hu hp => ?_, fun u hu hp => ?_, fun hn => ?_⟩ <;>
    simp_all [isValidBrowserUrl]

/-- C1, witness: the three branches of the amended claim at concrete inputs. -/
theorem isValidBrowserUrl_amended_witness :
    isValidBrowserUrl "http://evil.example/x" =
      Except.ok (some "http://evil.example/x") ∧
    isValidBrowserUrl "mailto:test@example.com" = Except.ok none ∧
    isValidBrowserUrl "nonsense without colon" = Except.error JsError.typeError :=
  ⟨(isValidBrowserUrl_amended _).1 evilURL (by decide) (by decide),
   (isValidBrowserUrl_amended _).2.1 mailtoURL (by decide) (by decide),
   (isValidBrowserUrl_amended _).2.2 (by decide)⟩

/-- C2, counterexample. The claim says `openInBrowser` calls
`event.preventDefault()` unconditionally, even on a malformed URL; on
`"not a url"` the `isValidBrowserUrl` call inside `openInBrowser` throws
before the `event.preventDefault()` line is reached, so the default action
is not suppressed. -/
theorem openInBrowser_malformed_no_preventDefault_cex :
    parseURL "not a url" = none ∧
    openInBrowser "not a url" = Except.error JsError.typeError := by decide

/-- C2, amended. For every URL string that parses, `openInBrowser` calls
`event.preventDefault()` and hands the URL to `shell.openExternal` exactly
when `isValidBrowserUrl` succeeds on it (scheme `http` or `https`); for a
string that fails URL parsing the exception propagates before
`preventDefault` runs. -/
theorem openInBrowser_amended (url : String) :
    (∀ u : URLRecord, parseURL url = some u →
      openInBrowser url =
        Except.ok ⟨true,
          if u.protocol = "http:" ∨ u.protocol = "https:" then [url] else []⟩)
    ∧ (parseURL url = none →
      openInBrowser url = Except.error JsError.typeError) :=
  ⟨fun u hu => openInBrowser_eq url u hu,
   fun hn => by simp [openInBrowser, isValidBrowserUrl, hn]⟩

/-- C2, witness: a valid https URL is both suppressed and opened externally;
a parsable `mailto:` URL is suppressed but not opened. -/
theorem openInBrowser_amended_witness :
    openInBrowser "https://wordpress.com/wp-login.php" =
      Except.ok ⟨true, ["https://wordpress.com/wp-login.php"]⟩ ∧
    openInBrowser "mailto:test@example.com" = Except.ok ⟨true, []⟩ :=
  ⟨by
    have h := (openInBrowser_amended "https://wordpress.com/wp-login.php").1
      wpLoginURL (by decide)
    rw [h]; decide,
   by
    have h := (openInBrowser_amended "mailto:test@example.com").1
      mailtoURL (by decide)
    rw [h]; decide⟩

/-- C3 (confirmed). On `will-navigate` with a parsable destination and
parsable pattern entries: when the destination's host and path match some
`ALWAYS_OPEN_IN_APP` entry the handler takes no action (no `preventDefault`,
no external browser); when no entry matches, the default navigation is
suppressed and the URL goes to `shell.openExternal` exactly once if and only
if its scheme is http(s). -/
theorem willNavigate_policy (cfg : Config) (url : String) (u : URLRecord)
    (hu : parseURL url = some u)
    (hl : ∀ e ∈ ALWAYS_OPEN_IN_APP cfg, (parseURL e).isSome) :
    ((ALWAYS_OPEN_IN_APP cfg).any (entryMatches u) = true →
      willNavigate cfg url = Except.ok ⟨false, []⟩)
    ∧ ((ALWAYS_OPEN_IN_APP cfg).any (entryMatches u) = false →
      willNavigate cfg url =
        Except.ok ⟨true,
          if u.protocol = "http:" ∨ u.protocol = "https:" then [url] else []⟩) := by
  rw [willNavigate_eq cfg url u hu hl]
  constructor <;> intro hm <;> simp [hm]

/-- C3, witness: `https://wordpress.com/wp-login.php` matches the list and
loads in place; `http://evil.example/x` matches nothing, is suppressed and
forwarded once. -/
theorem willNavigate_policy_witness :
    willNavigate cfg0 "https://wordpress.com/wp-login.php" =
      Except.ok ⟨false, []⟩ ∧
    willNavigate cfg0 "http://evil.example/x" =
      Except.ok ⟨true, ["http://evil.example/x"]⟩ :=
  ⟨(willNavigate_policy cfg0 "https://wordpress.com/wp-login.php" wpLoginURL
      (by decide) (by decide)).1 (by decide),
   by
    have h := (willNavigate_policy cfg0 "http://evil.example/x" evilURL
      (by decide) (by decide)).2 (by decide)
    rw [h]; decide⟩

/-- C4 (confirmed). `domainAndPathSame( a, b )` is true iff hostnames are
equal and (pathnames are equal or `b`'s pathname is exactly `/*`); the
wildcard only acts on the second (policy-side) argument, so the relation is
asymmetric on the concrete wildcard pair from the claim. -/
theorem domainAndPathSame_characterization :
    (∀ a b : URLRecord, domainAndPathSame a b = true ↔
      (a.hostname = b.hostname ∧
        (a.pathname = b.pathname ∨ b.pathname = "/*")))
    ∧ domainAndPathSame ⟨"https:", "x", "", "/foo", "", ""⟩
        ⟨"https:", "x", "", "/*", "", ""⟩ = true
    ∧ domainAndPathSame ⟨"https:", "x", "", "/*", "", ""⟩
        ⟨"https:", "x", "", "/foo", "", ""⟩ = false := by
  refine ⟨fun a b => ?_, by decide, by decide⟩
  simp [domainAndPathSame]

/-- C5 (code bug). `enableSSOandContinue` removes the
`enable-site-option-response` listener on first firing
(`enableRespListeners = 0` after the response), but the
`request-site-response` listener it registers on success is never removed:
it is still registered after firing (`requestRespListeners = 1`), and a
second `request-site-response` event triggers a duplicate `navigate` send
(`navigateSent = 2`), contradicting the one-shot invariant. -/
theorem ssoListener_leak :
    runSsoFlow [SsoEvent.enableResp "success"] =
      ⟨0, 1, 1, 0⟩ ∧
    runSsoFlow [SsoEvent.enableResp "success", SsoEvent.requestResp] =
      ⟨0, 1, 1, 1⟩ ∧
    runSsoFlow
        [SsoEvent.enableResp "success", SsoEvent.requestResp,
         SsoEvent.requestResp] =
      ⟨0, 1, 1, 2⟩ := by decide

/-- C6 (confirmed). On `new-window` whose parsable URL matches some
`DONT_OPEN_IN_BROWSER` entry: the window options become `x+50`, `y+50`,
`width*0.9`, `height*0.9`, no external browser call happens, and the event's
default action is not suppressed. -/
theorem newWindow_match_geometry (cfg : Config) (url : String) (u : URLRecord)
    (options : WinOptions) (hu : parseURL url = some u)
    (hl : ∀ e ∈ DONT_OPEN_IN_BROWSER cfg, (parseURL e).isSome)
    (hm : (DONT_OPEN_IN_BROWSER cfg).any (entryMatches u) = true) :
    newWindow cfg url options =
      Except.ok ⟨false, [],
        ⟨options.x + 50, options.y + 50,
         options.width * (9 / 10), options.height * (9 / 10)⟩⟩ := by
  rw [newWindow_eq cfg url u options hu hl, hm]
  norm_num [OFFSET_NEW_WINDOW, SCALE_NEW_WINDOW_FACTOR]

/-- C6, witness: `https://public-api.wordpress.com/connect/` matches the
list; options `(0, 0, 1000, 800)` become `(50, 50, 900, 720)`. -/
theorem newWindow_match_geometry_witness :
    newWindow cfg0 "https://public-api.wordpress.com/connect/"
        ⟨0, 0, 1000, 800⟩ =
      Except.ok ⟨false, [], ⟨50, 50, 900, 720⟩⟩ := by
  have h := newWindow_match_geometry cfg0
    "https://public-api.wordpress.com/connect/"
    ⟨"https:", "public-api.wordpress.com", "", "/connect/", "", ""⟩
    ⟨0, 0, 1000, 800⟩ (by decide) (by decide) (by decide)
  rw [h]
  simp only [Except.ok.injEq, NewWindowResult.mk.injEq, WinOptions.mk.injEq]
  norm_num

/-- C7 (confirmed). On `new-window` whose parsable URL matches no
`DONT_OPEN_IN_BROWSER` entry, the handler forwards
`format( replaceInternalCalypsoUrl( parsedUrl ) )` to `openInBrowser` and
leaves the window options unchanged; `replaceInternalCalypsoUrl` rewrites
the hostname to the public host and clears the port exactly when the
hostname equals the internal server host, and passes the URL through
unchanged otherwise. -/
theorem newWindow_nomatch_rewrite (cfg : Config) (url : String) (u : URLRecord)
    (options : WinOptions) (hu : parseURL url = some u)
    (hl : ∀ e ∈ DONT_OPEN_IN_BROWSER cfg, (parseURL e).isSome)
    (hm : (DONT_OPEN_IN_BROWSER cfg).any (entryMatches u) = false) :
    newWindow cfg url options =
      Except.map (fun r => ⟨r.prevented, r.opened, options⟩)
        (openInBrowser (formatURL (replaceInternalCalypsoUrl cfg u)))
    ∧ (u.hostname = cfg.server_host →
      replaceInternalCalypsoUrl cfg u =
        { u with hostname := cfg.wordpress_host, port := "" })
    ∧ (u.hostname ≠ cfg.server_host → replaceInternalCalypsoUrl cfg u = u) := by
  refine ⟨?_, fun hh => ?_, fun hh => ?_⟩
  · rw [newWindow_eq cfg url u options hu hl, hm]
    simp
  · simp [replaceInternalCalypsoUrl, hh]
  · simp [replaceInternalCalypsoUrl, hh]

/-- C7, witness: `http://127.0.0.1:41050/post` matches no entry (its path
differs from the listed `/`), its internal host is rewritten to
`wordpress.com` with the port cleared, and the formatted public URL is
opened externally while the options pass through unchanged. -/
theorem newWindow_nomatch_rewrite_witness :
    newWindow cfg0 "http://127.0.0.1:41050/post" ⟨1, 2, 3, 4⟩ =
      Except.ok ⟨true, ["http://wordpress.com/post"], ⟨1, 2, 3, 4⟩⟩ ∧
    replaceInternalCalypsoUrl cfg0 internalPostURL =
      ⟨"http:", "wordpress.com", "", "/post", "", ""⟩ := by
  have h := newWindow_nomatch_rewrite cfg0 "http://127.0.0.1:41050/post"
    internalPostURL ⟨1, 2, 3, 4⟩ (by decide) (by decide) (by decide)
  refine ⟨?_, ?_⟩
  · rw [h.1]; rfl
  · rw [h.2.1 (by decide)]; rfl

/-- C8 (confirmed). For `cannot-open-editor` with `isAdmin = false` the
dialog offers exactly the two buttons `Proceed in Browser` and `Cancel`;
choosing the first (index 0) with a valid editor URL opens it externally,
then navigates the window to My Sites and persists last-location as
`/stats/day/<hostname>` of the origin. -/
theorem promptWpAdminAuth_nonadmin (editorUrl originHostname : String)
    (h : isValidBrowserUrl editorUrl = Except.ok (some editorUrl)) :
    dialogButtons false = ["Proceed in Browser", "Cancel"] ∧
    promptWpAdminAuth false (fun _ => Except.ok 0) editorUrl originHostname =
      { prevented := true, openedExternal := [editorUrl],
        showedMySites := true,
        savedLastLocation := some ("/stats/day/" ++ originHostname) } := by
  have ho : openInBrowser editorUrl = Except.ok ⟨true, [editorUrl]⟩ := by
    simp [openInBrowser, h]
  refine ⟨rfl, ?_⟩
  simp only [promptWpAdminAuth, dialogButtons, ho]
  rfl

/-- C8, witness: the non-admin happy path at a concrete editor URL. -/
theorem promptWpAdminAuth_nonadmin_witness :
    isValidBrowserUrl "https://example.com/wp-admin/post.php" =
      Except.ok (some "https://example.com/wp-admin/post.php") ∧
    (dialogButtons false = ["Proceed in Browser", "Cancel"] ∧
      promptWpAdminAuth false (fun _ => Except.ok 0)
          "https://example.com/wp-admin/post.php" "example.com" =
        { prevented := true,
          openedExternal := ["https://example.com/wp-admin/post.php"],
          showedMySites := true,
          savedLastLocation := some "/stats/day/example.com" }) :=
  ⟨by decide, promptWpAdminAuth_nonadmin _ _ (by decide)⟩

/-- C9 (confirmed). When `dialog.showMessageBox` throws, the `catch` block
logs the error and the flow ends with no other side effect: nothing opened
externally, no `preventDefault`, no My Sites navigation, no last-location
write, no SSO request. -/
theorem promptWpAdminAuth_dialog_failure (isAdmin : Bool)
    (editorUrl originHostname : String) :
    promptWpAdminAuth isAdmin (fun _ => Except.error JsError.typeError)
        editorUrl originHostname =
      { prevented := false, openedExternal := [],
        sentEnableSiteOption := false, ssoListenerRegistered := false,
        showedMySites := false, savedLastLocation := none,
        loggedError := true } := rfl

/-- C10, counterexample. `http://example.com/x` and `ftp://example.com/x`
agree on hostname and pathname (so `domainAndPathSame` treats them alike),
yet on `will-navigate` the first is forwarded to the external browser and
the second is only swallowed: the full routing decision also depends on the
scheme, not on hostname and pathname alone. -/
theorem routing_scheme_dependent_cex :
    parseURL "http://example.com/x" =
      some ⟨"http:", "example.com", "", "/x", "", ""⟩ ∧
    parseURL "ftp://example.com/x" =
      some ⟨"ftp:", "example.com", "", "/x", "", ""⟩ ∧
    willNavigate cfg0 "http://example.com/x" =
      Except.ok ⟨true, ["http://example.com/x"]⟩ ∧
    willNavigate cfg0 "ftp://example.com/x" = Except.ok ⟨true, []⟩ := by decide

/-- C10, amended. For two parsed URLs agreeing on hostname and pathname,
`domainAndPathSame` gives the same verdict against every policy entry, so
every pattern-list match decision is identical; the complete `will-navigate`
routing outcome (suppression and number of external-browser calls) is
additionally identical whenever the two URLs agree on whether their scheme
is http(s). -/
theorem classification_host_path_only (u v : URLRecord)
    (hh : u.hostname = v.hostname) (hp : u.pathname = v.pathname) :
    (∀ e : URLRecord, domainAndPathSame u e = domainAndPathSame v e)
    ∧ (∀ l : List String, l.any (entryMatches u) = l.any (entryMatches v))
    ∧ (∀ (cfg : Config) (s t : String),
        parseURL s = some u → parseURL t = some v →
        (∀ e ∈ ALWAYS_OPEN_IN_APP cfg, (parseURL e).isSome) →
        ((u.protocol = "http:" ∨ u.protocol = "https:") ↔
          (v.protocol = "http:" ∨ v.protocol = "https:")) →
        Except.map (fun r => (r.prevented, r.opened.length))
            (willNavigate cfg s) =
          Except.map (fun r => (r.prevented, r.opened.length))
            (willNavigate cfg t)) := by
  have hdps : ∀ e : URLRecord, domainAndPathSame u e = domainAndPathSame v e :=
    fun e => by simp [domainAndPathSame, hh, hp]
  have hentry : entryMatches u = entryMatches v := by
    funext e
    unfold entryMatches
    cases parseURL e with
    | none => rfl
    | some eu => exact hdps eu
  refine ⟨hdps, fun l => by rw [hentry], fun cfg s t hs ht hl hiff => ?_⟩
  rw [willNavigate_eq cfg s u hs hl, willNavigate_eq cfg t v ht hl, hentry]
  cases hm : (ALWAYS_OPEN_IN_APP cfg).any (entryMatches v) with
  | true => rfl
  | false =>
    by_cases hpu : u.protocol = "http:" ∨ u.protocol = "https:"
    · have hpv := hiff.mp hpu
      rw [if_pos hpu, if_pos hpv]
      rfl
    · have hpv : ¬(v.protocol = "http:" ∨ v.protocol = "https:") :=
        fun h2 => hpu (hiff.mpr h2)
      rw [if_neg hpu, if_neg hpv]

/-- C10, witness for the amended claim: the same host and path behind a
different port and query route identically. -/
theorem classification_host_path_only_witness :
    Except.map (fun r => (r.prevented, r.opened.length))
        (willNavigate cfg0 "http://localhost/x") =
      Except.map (fun r => (r.prevented, r.opened.length))
        (willNavigate cfg0 "http://localhost:8080/x?q=1") :=
  (classification_host_path_only localhostPlainURL localhostPortURL
      (by decide) (by decide)).2.2 cfg0 _ _
    (by decide) (by decide) (by decide) (by decide)

end WpDesktop
